import Mathlib

/-!
Shallow embedding of the PoseCamPC pipeline controller
(src/core/controller.py) and proofs about its state machine, resource
lifecycle, preview relay, performance recorder and detector hot-swap.

External effects (logging, GUI notification, CSV rows, capture
open/release, network sends, seeks, overlay drawing) are recorded as an
explicit event list returned next to the new controller state.
Wall-clock times are modelled as exact rationals; the results of the
external OpenCV / NDI / UDP calls are supplied as environment inputs.
-/

/-- The AppState enum of controller.py. -/
inductive AppState where
  | INIT
  | READY
  | RUNNING
  | PAUSED
  | STOPPED
deriving DecidableEq, Repr

/-- A video frame. Pixel data is abstracted to an identifier; the number
of overlay drawings applied to the buffer is tracked explicitly. -/
structure Frame where
  id : Nat
  overlays : Nat
deriving DecidableEq, Repr

/-- Per-model performance accumulator, the values of model_perf_stats. -/
structure PerfStats where
  total_time : Rat
  frame_count : Nat
deriving DecidableEq, Repr

/-- One frame row of the performance CSV log. -/
structure FrameRow where
  model : String
  frame_num : Nat
  time_ms : Rat
  fps : Rat
  persons : Nat
  running_avg_ms : Rat
  running_avg_fps : Rat
deriving DecidableEq, Repr

/-- Observable side effects of the controller methods. -/
inductive Event where
  | warn
  | error
  | guiUpdateState (s : AppState)
  | guiUpdateConfig
  | guiRevertDetector (name : String)
  | guiUpdateOsc (active : Bool)
  | guiUpdateNdi (active : Bool)
  | guiUpdateVideoInfo (w h : Nat)
  | guiClearVideoInfo
  | perfEventRow (model : String)
  | frameRow (r : FrameRow)
  | captureOpened
  | captureReleased
  | seekToStart
  | oscSend
  | ndiSend (f : Frame)
  | drawOverlay (onPreview : Bool)
deriving DecidableEq, Repr

/-- The configuration dictionary of the controller. -/
structure Config where
  input : String
  loop_video : Bool
  draw_ndi_overlay : Bool
  ndi_name : String
  osc_ip : String
  osc_port : Nat
  osc_listen_port : Nat
  video_file : Option String
  camera_id : Nat
  fps_limit : Nat
  detector_model : String
deriving DecidableEq, Repr

/-- The bounded preview hand-off queue (queue.Queue with a maxsize). -/
structure PreviewQueue where
  maxsize : Nat
  items : List Frame
deriving DecidableEq, Repr

/-- queue.Queue.put_nowait: raises Full (modelled as none) exactly when
the queue is bounded and already holds maxsize items; otherwise appends
the frame at the tail. -/
def PreviewQueue.put_nowait (q : PreviewQueue) (f : Frame) : Option PreviewQueue :=
  if 0 < q.maxsize ∧ q.maxsize ≤ q.items.length then none
  else some { q with items := q.items ++ [f] }

/-- The PoseCamController object. video_capture is none when no capture
handle exists and some b when a handle exists with isOpened result b.
osc_client and ndi_sender record presence of the respective objects.
detector_ctor_ok models whether the backend class constructor for a
given model name succeeds. -/
structure PoseCamController where
  available_detectors : List String
  detector_ctor_ok : String → Bool
  state : AppState
  config : Config
  pose_detector : Option String
  video_width : Nat
  video_height : Nat
  available_cameras : List (Nat × String)
  perf_log_ok : Bool
  model_perf_stats : String → Option PerfStats
  video_capture : Option Bool
  osc_client : Bool
  osc_active : Bool
  ndi_sender : Bool
  ndi_active : Bool
  ndi_init_done : Bool
  gui : Bool
  frame_count : Nat
  preview_frame_queue : PreviewQueue

/-- update_state: store the new state and notify the GUI synchronously. -/
def PoseCamController.update_state (c : PoseCamController) (s : AppState) :
    PoseCamController × List Event :=
  ({ c with state := s }, if c.gui then [Event.guiUpdateState s] else [])

/-- start: no-op with a warning when already RUNNING, otherwise reset the
frame counter and go to RUNNING. -/
def PoseCamController.start (c : PoseCamController) : PoseCamController × List Event :=
  if c.state = AppState.RUNNING then
    (c, [Event.warn])
  else
    let c1 := { c with frame_count := 0 }
    c1.update_state AppState.RUNNING

/-- stop_osc: drop the client object, clear the active flag, report. -/
def PoseCamController.stop_osc (c : PoseCamController) : PoseCamController × List Event :=
  let c1 := { c with osc_client := false, osc_active := false }
  (c1, if c1.gui then [Event.guiUpdateOsc false] else [])

/-- stop_ndi: destroy the sender, clear the active flag, report. -/
def PoseCamController.stop_ndi (c : PoseCamController) : PoseCamController × List Event :=
  let c1 := { c with ndi_sender := false, ndi_active := false }
  (c1, if c1.gui then [Event.guiUpdateNdi false] else [])

/-- stop: go to STOPPED, then also stop both output sinks. -/
def PoseCamController.stop (c : PoseCamController) : PoseCamController × List Event :=
  let p1 := c.update_state AppState.STOPPED
  let p2 := p1.1.stop_osc
  let p3 := p2.1.stop_ndi
  (p3.1, p1.2 ++ p2.2 ++ p3.2)

/-- stop_video_stream: stop only the video stream, leaving sinks alone;
warn when already stopped. -/
def PoseCamController.stop_video_stream (c : PoseCamController) :
    PoseCamController × List Event :=
  if c.state = AppState.STOPPED ∨ c.state = AppState.READY then
    (c, [Event.warn])
  else
    c.update_state AppState.STOPPED

/-- start_osc: warn and return when a client already exists; otherwise
try to create one (create_ok models the UDP client constructor) and
report the resulting activation state to the GUI. -/
def PoseCamController.start_osc (c : PoseCamController) (create_ok : Bool) :
    PoseCamController × List Event :=
  if c.osc_client then
    (c, [Event.warn])
  else
    let c1 :=
      if create_ok then { c with osc_client := true, osc_active := true }
      else { c with osc_client := false, osc_active := false }
    let ev1 := if create_ok then [] else [Event.error]
    (c1, ev1 ++ (if c1.gui then [Event.guiUpdateOsc c1.osc_active] else []))

/-- start_ndi: warn and return when a sender already exists; otherwise
run library init if needed and create a sender, reporting the resulting
activation state to the GUI in every non-early-return path. -/
def PoseCamController.start_ndi (c : PoseCamController) (init_ok create_ok : Bool) :
    PoseCamController × List Event :=
  if c.ndi_sender then
    (c, [Event.warn])
  else if ¬ c.ndi_init_done ∧ ¬ init_ok then
    let c1 := { c with ndi_sender := false, ndi_active := false }
    (c1, [Event.error] ++ (if c1.gui then [Event.guiUpdateNdi false] else []))
  else
    let c1 := { c with ndi_init_done := true }
    if create_ok then
      let c2 := { c1 with ndi_sender := true, ndi_active := true }
      (c2, if c2.gui then [Event.guiUpdateNdi true] else [])
    else
      let c2 := { c1 with ndi_sender := false, ndi_active := false }
      (c2, [Event.error] ++ (if c2.gui then [Event.guiUpdateNdi false] else []))

/-- pause: toggle between RUNNING and PAUSED. -/
def PoseCamController.pause (c : PoseCamController) : PoseCamController × List Event :=
  if c.state = AppState.RUNNING then c.update_state AppState.PAUSED
  else if c.state = AppState.PAUSED then c.update_state AppState.RUNNING
  else (c, [])

/-- _log_perf_event: when logging is enabled, reset the running-average
accumulator for the currently active model; write the event row only
when the stream resolution is known. -/
def PoseCamController.log_perf_event (c : PoseCamController) :
    PoseCamController × List Event :=
  if c.perf_log_ok = false then (c, [])
  else
    let m := c.config.detector_model
    let c1 := { c with model_perf_stats :=
      fun n => if n = m then some { total_time := 0, frame_count := 0 }
               else c.model_perf_stats n }
    if c1.video_width = 0 then (c1, [])
    else (c1, [Event.perfEventRow m])

/-- _log_perf_frame: accumulate the frame time into the active model
stats and emit one CSV frame row with instantaneous and running-average
figures. -/
def PoseCamController.log_perf_frame (c : PoseCamController)
    (frame_time_s : Rat) (num_persons : Nat) : PoseCamController × List Event :=
  if c.perf_log_ok = false then (c, [])
  else
    let m := c.config.detector_model
    let frame_time_ms := frame_time_s * 1000
    let fps := if 0 < frame_time_s then 1 / frame_time_s else 0
    let stats0 := (c.model_perf_stats m).getD { total_time := 0, frame_count := 0 }
    let stats : PerfStats :=
      { total_time := stats0.total_time + frame_time_s,
        frame_count := stats0.frame_count + 1 }
    let c1 := { c with model_perf_stats :=
      fun n => if n = m then some stats else c.model_perf_stats n }
    let running_avg_s := stats.total_time / (stats.frame_count : Rat)
    let running_avg_ms := running_avg_s * 1000
    let running_avg_fps := if 0 < running_avg_s then 1 / running_avg_s else 0
    (c1, [Event.frameRow
      { model := m, frame_num := c.frame_count, time_ms := frame_time_ms,
        fps := fps, persons := num_persons,
        running_avg_ms := running_avg_ms, running_avg_fps := running_avg_fps }])

/-- _initialize_detector: raise (error) when the configured model name
is unknown or its backend constructor fails; otherwise instantiate it. -/
def PoseCamController.init_detector (c : PoseCamController) :
    Except String PoseCamController :=
  let model_name := c.config.detector_model
  if model_name ∈ c.available_detectors then
    if c.detector_ctor_ok model_name then
      Except.ok { c with pose_detector := some model_name }
    else Except.error "failed to construct detector backend"
  else Except.error "invalid detector model specified in config"

/-- update_config for the detector_model key: store and notify GUI. -/
def PoseCamController.update_config_detector_model (c : PoseCamController)
    (v : String) : PoseCamController × List Event :=
  let c1 := { c with config := { c.config with detector_model := v } }
  (c1, if c1.gui then [Event.guiUpdateConfig] else [])

/-- update_config for the draw_ndi_overlay key: store, notify GUI, then
log a performance event (which resets the running average). -/
def PoseCamController.update_config_draw_ndi_overlay (c : PoseCamController)
    (v : Bool) : PoseCamController × List Event :=
  let c1 := { c with config := { c.config with draw_ndi_overlay := v } }
  let ev1 := if c1.gui then [Event.guiUpdateConfig] else []
  let p2 := c1.log_perf_event
  (p2.1, ev1 ++ p2.2)

/-- change_detector_model: rejected with a warning (and a GUI revert of
the dropdown) outside READY and STOPPED; a no-op when the name is
already active; otherwise update the config, log a reset event and
re-instantiate the backend, propagating instantiation failure. -/
def PoseCamController.change_detector_model (c : PoseCamController)
    (model_name : String) : Except String PoseCamController × List Event :=
  if ¬ (c.state = AppState.STOPPED ∨ c.state = AppState.READY) then
    (Except.ok c,
      Event.warn :: (if c.gui then [Event.guiRevertDetector c.config.detector_model] else []))
  else if model_name = c.config.detector_model then
    (Except.ok c, [])
  else
    let p1 := c.update_config_detector_model model_name
    let p2 := p1.1.log_perf_event
    match p2.1.init_detector with
    | Except.ok c3 => (Except.ok c3, p1.2 ++ p2.2)
    | Except.error e => (Except.error e, p1.2 ++ p2.2 ++ [Event.error])

/-- Per-iteration environment inputs of the run loop: the outcome of an
attempted capture open (with resolution), the outcomes of the first and
the retried read, the detection result size and the measured wall time
of the detection step. -/
structure FrameEnv where
  open_ok : Bool
  open_width : Nat
  open_height : Nat
  read1 : Option Frame
  read2 : Option Frame
  persons : Nat
  frame_time : Rat

/-- capture_frame: read a frame; on a failed read with a looping file
source, seek to the start and retry exactly once. -/
def PoseCamController.capture_frame (c : PoseCamController) (env : FrameEnv) :
    Option Frame × List Event :=
  match c.video_capture with
  | some true =>
    match env.read1 with
    | some f => (some f, [])
    | none =>
      if c.config.input = "file" ∧ c.config.loop_video then
        (env.read2, [Event.seekToStart])
      else (none, [])
  | _ => (none, [])

/-- The capture-creation block at the top of the RUNNING branch of
run(): construct the handle for the configured source, then either set
the resolution, notify the GUI and log a start event (success), or log
the failure, call stop() and clear the GUI video info (failure). The
Bool is false when the iteration ends here (the continue statement). -/
def PoseCamController.openCapture (c : PoseCamController) (env : FrameEnv) :
    PoseCamController × List Event × Bool :=
  let p1 : PoseCamController × List Event :=
    if c.config.input = "webcam" then
      ({ c with video_capture := some env.open_ok }, [Event.captureOpened])
    else if c.config.input = "file" ∧ c.config.video_file.isSome then
      ({ c with video_capture := some env.open_ok }, [Event.captureOpened])
    else (c, [])
  let c1 := p1.1
  if c1.video_capture = some true then
    let c2 := { c1 with video_width := env.open_width, video_height := env.open_height }
    let ev2 := if c2.gui then [Event.guiUpdateVideoInfo env.open_width env.open_height] else []
    let p3 := c2.log_perf_event
    (p3.1, p1.2 ++ ev2 ++ p3.2, true)
  else
    let evh := if c1.config.input = "file" then [Event.error, Event.warn] else [Event.error]
    let p2 := c1.stop
    let ev3 := if p2.1.gui then [Event.guiClearVideoInfo] else []
    (p2.1, p1.2 ++ evh ++ p2.2 ++ ev3, false)

/-- The per-frame body of the RUNNING branch after a successful read:
count the frame, detect, conditionally draw the sink overlay, record
performance, send OSC, clone for preview (drawing the overlay on the
clone only when it was not drawn for the sink), push into the preview
queue dropping on overflow, and send the frame to NDI. -/
def PoseCamController.processFrame (c : PoseCamController) (env : FrameEnv)
    (f : Frame) : PoseCamController × List Event :=
  let c0 := { c with frame_count := c.frame_count + 1 }
  let pD : Frame × List Event :=
    if c0.config.draw_ndi_overlay then
      ({ f with overlays := f.overlays + 1 }, [Event.drawOverlay false])
    else (f, [])
  let f1 := pD.1
  let pP := c0.log_perf_frame env.frame_time env.persons
  let c1 := pP.1
  let evOsc := if c1.osc_active then [Event.oscSend] else []
  let pD2 : Frame × List Event :=
    if c1.config.draw_ndi_overlay = false then
      ({ f1 with overlays := f1.overlays + 1 }, [Event.drawOverlay true])
    else (f1, [])
  let pv := pD2.1
  let c2 :=
    match c1.preview_frame_queue.put_nowait pv with
    | some q => { c1 with preview_frame_queue := q }
    | none => c1
  let evN := if c2.ndi_sender then [Event.ndiSend f1] else []
  (c2, pD.2 ++ pP.2 ++ evOsc ++ pD2.2 ++ evN)

/-- The RUNNING branch of one run() iteration. -/
def PoseCamController.runStepRunning (c : PoseCamController) (env : FrameEnv) :
    PoseCamController × List Event :=
  let t :=
    if c.video_capture = none then c.openCapture env else (c, [], true)
  let c1 := t.1
  let ev1 := t.2.1
  if t.2.2 = false then (c1, ev1)
  else
    match c1.capture_frame env with
    | (some f, ev2) =>
      let p3 := c1.processFrame env f
      (p3.1, ev1 ++ ev2 ++ p3.2)
    | (none, ev2) =>
      let p3 := c1.stop_video_stream
      (p3.1, ev1 ++ ev2 ++ p3.2)

/-- One iteration of the main run() loop: RUNNING processes a frame,
PAUSED sleeps, and every other state releases the capture handle if one
exists and resets the recorded resolution. -/
def PoseCamController.runStep (c : PoseCamController) (env : FrameEnv) :
    PoseCamController × List Event :=
  if c.state = AppState.RUNNING then
    c.runStepRunning env
  else if c.state = AppState.PAUSED then
    (c, [])
  else
    if c.video_capture.isSome then
      ({ c with video_capture := none, video_width := 0, video_height := 0 },
        Event.captureReleased :: (if c.gui then [Event.guiClearVideoInfo] else []))
    else (c, [])

/-- Insertion of a camera entry into an id-sorted list. -/
def insertCamByFst (p : Nat × String) : List (Nat × String) → List (Nat × String)
  | [] => [p]
  | q :: qs => if p.1 ≤ q.1 then p :: q :: qs else q :: insertCamByFst p qs

/-- Sorting of the camera map items by id, as sorted() does. -/
def sortCamsByFst : List (Nat × String) → List (Nat × String)
  | [] => []
  | p :: ps => insertCamByFst p (sortCamsByFst ps)

/-- _find_default_camera_id: prefer the first USB-named camera in id
order, else the first camera, else id 0. -/
def find_default_camera_id (cameras : List (Nat × String)) : Nat :=
  if cameras = [] then 0
  else
    let sorted := sortCamsByFst cameras
    match sorted.find? (fun p => p.2.toLower.startsWith "usb") with
    | some p => p.1
    | none => ((sorted.headD (0, "")).1)

/-- The default detector name chosen by the constructor. -/
def default_detector_name (available : List String) : String :=
  if "MediaPipe Pose (Default)" ∈ available then "MediaPipe Pose (Default)"
  else available.headD ""

/-- The controller constructor. The default video file is resolved from
the filesystem outside the model and supplied as an input; log_ok models
whether the performance log file could be created. Fails (raises) when
the default detector cannot be instantiated. -/
def mkController (available : List String) (ctor_ok : String → Bool)
    (cameras : List (Nat × String)) (default_video : Option String)
    (log_ok : Bool) : Except String PoseCamController :=
  let default_name := default_detector_name available
  let c0 : PoseCamController :=
    { available_detectors := available
      detector_ctor_ok := ctor_ok
      state := AppState.INIT
      config :=
        { input := "file", loop_video := true, draw_ndi_overlay := true,
          ndi_name := "posePC", osc_ip := "127.0.0.1", osc_port := 5005,
          osc_listen_port := 9000, video_file := default_video,
          camera_id := find_default_camera_id cameras, fps_limit := 30,
          detector_model := default_name }
      pose_detector := none
      video_width := 0
      video_height := 0
      available_cameras := cameras
      perf_log_ok := log_ok
      model_perf_stats := fun _ => none
      video_capture := none
      osc_client := false
      osc_active := false
      ndi_sender := false
      ndi_active := false
      ndi_init_done := false
      gui := false
      frame_count := 0
      preview_frame_queue := { maxsize := 2, items := [] } }
  c0.init_detector

/-- Whether a constructor run completed without raising. -/
def exceptIsOk : Except String PoseCamController → Bool
  | Except.ok _ => true
  | Except.error _ => false

/-- A concrete controller configuration used to instantiate theorems. -/
def sampleConfig : Config :=
  { input := "file", loop_video := true, draw_ndi_overlay := true,
    ndi_name := "posePC", osc_ip := "127.0.0.1", osc_port := 5005,
    osc_listen_port := 9000, video_file := some "sample.mp4",
    camera_id := 0, fps_limit := 30, detector_model := "m1" }

/-- A concrete controller in READY state with a GUI attached. -/
def sampleController : PoseCamController :=
  { available_detectors := ["m1", "m2"]
    detector_ctor_ok := fun _ => true
    state := AppState.READY
    config := sampleConfig
    pose_detector := some "m1"
    video_width := 0
    video_height := 0
    available_cameras := []
    perf_log_ok := true
    model_perf_stats := fun _ => none
    video_capture := none
    osc_client := false
    osc_active := false
    ndi_sender := false
    ndi_active := false
    ndi_init_done := false
    gui := true
    frame_count := 5
    preview_frame_queue := { maxsize := 2, items := [] } }

/-- C1: start() is a warning no-op exactly in RUNNING; in every other
state it resets the frame counter to 0 and moves to RUNNING without a
warning. -/
theorem start_state_machine (c : PoseCamController) :
    (c.state = AppState.RUNNING → c.start = (c, [Event.warn])) ∧
    (c.state ≠ AppState.RUNNING →
      (c.start).1 = { c with frame_count := 0, state := AppState.RUNNING } ∧
      Event.warn ∉ (c.start).2) := by
  constructor
  · intro h
    simp [PoseCamController.start, h]
  · intro h
    constructor
    · simp [PoseCamController.start, PoseCamController.update_state, if_neg h]
    · cases hg : c.gui <;>
        simp [PoseCamController.start, PoseCamController.update_state, if_neg h, hg]

/-- Witness for C1 at a concrete READY controller. -/
theorem start_state_machine_witness :
    sampleController.state ≠ AppState.RUNNING ∧
    ((sampleController.start).1 =
        { sampleController with frame_count := 0, state := AppState.RUNNING } ∧
      Event.warn ∉ (sampleController.start).2) :=
  ⟨by decide, (start_state_machine sampleController).2 (by decide)⟩

/-- C10: requesting a swap to the already-active model name in READY or
STOPPED returns the controller unchanged with no events: the config is
not rewritten, no perf reset is emitted, and no backend is rebuilt. -/
theorem change_detector_same_name_noop (c : PoseCamController) (name : String)
    (h1 : c.state = AppState.STOPPED ∨ c.state = AppState.READY)
    (h2 : name = c.config.detector_model) :
    c.change_detector_model name = (Except.ok c, []) := by
  rcases h1 with h | h <;>
    simp [PoseCamController.change_detector_model, h, h2]

/-- Witness for C10 at a concrete READY controller and its own model. -/
theorem change_detector_same_name_noop_witness :
    (sampleController.state = AppState.STOPPED ∨
      sampleController.state = AppState.READY) ∧
    "m1" = sampleController.config.detector_model ∧
    sampleController.change_detector_model "m1" = (Except.ok sampleController, []) :=
  ⟨Or.inr rfl, rfl,
    change_detector_same_name_noop sampleController "m1" (Or.inr rfl) rfl⟩

/-- A concrete controller whose OSC sink is already active. -/
def sampleOscActive : PoseCamController :=
  { sampleController with osc_client := true, osc_active := true }

/-- C8 counterexample: starting the already-active OSC sink returns
early with only a warning, so the activation state is never reported to
the attached front end, contradicting the report-after-every-attempt
part of the claim. -/
theorem start_osc_active_no_report :
    sampleOscActive.gui = true ∧ sampleOscActive.osc_client = true ∧
    sampleOscActive.start_osc true = (sampleOscActive, [Event.warn]) ∧
    (∀ b, Event.guiUpdateOsc b ∉ (sampleOscActive.start_osc true).2) :=
  ⟨rfl, rfl, rfl, by decide⟩

/-- C8 amended: start on an already-active sink is a warning no-op that
does not report; start on an inactive sink reports the resulting
activation state whether or not creation succeeded; every stop, of an
active or an inactive sink alike, reports the (now false) activation
state; and a stop of an already-inactive sink leaves the controller
unchanged. -/
theorem sink_transitions_spec (c : PoseCamController) (ok i k : Bool) :
    (c.osc_client = true → c.start_osc ok = (c, [Event.warn])) ∧
    (c.ndi_sender = true → c.start_ndi i k = (c, [Event.warn])) ∧
    (c.osc_client = false → c.gui = true →
      Event.guiUpdateOsc ((c.start_osc ok).1.osc_active) ∈ (c.start_osc ok).2) ∧
    (c.ndi_sender = false → c.gui = true →
      Event.guiUpdateNdi ((c.start_ndi i k).1.ndi_active) ∈ (c.start_ndi i k).2) ∧
    (c.gui = true → Event.guiUpdateOsc false ∈ (c.stop_osc).2) ∧
    (c.gui = true → Event.guiUpdateNdi false ∈ (c.stop_ndi).2) ∧
    (c.osc_client = false → c.osc_active = false → (c.stop_osc).1 = c) ∧
    (c.ndi_sender = false → c.ndi_active = false → (c.stop_ndi).1 = c) := by
  refine ⟨?_, ?_, ?_, ?_, ?_, ?_, ?_, ?_⟩
  · intro h; simp [PoseCamController.start_osc, h]
  · intro h; simp [PoseCamController.start_ndi, h]
  · intro h hg
    cases ok <;> simp [PoseCamController.start_osc, h, hg]
  · intro h hg
    cases i <;> cases k <;>
      cases hd : c.ndi_init_done <;>
        simp [PoseCamController.start_ndi, h, hg, hd]
  · intro hg
    simp [PoseCamController.stop_osc, hg]
  · intro hg
    simp [PoseCamController.stop_ndi, hg]
  · intro h ha
    cases c
    simp_all [PoseCamController.stop_osc]
  · intro h ha
    cases c
    simp_all [PoseCamController.stop_ndi]

/-- Witness for C8 amended: the start-on-active no-op and the
report-after-stopping-an-active-sink at one concrete controller, and
the report-on-start at another. -/
theorem sink_transitions_spec_witness :
    sampleOscActive.start_osc true = (sampleOscActive, [Event.warn]) ∧
    Event.guiUpdateOsc ((sampleController.start_osc true).1.osc_active) ∈
      (sampleController.start_osc true).2 ∧
    Event.guiUpdateOsc false ∈ (sampleOscActive.stop_osc).2 :=
  ⟨(sink_transitions_spec sampleOscActive true true true).1 rfl,
    (sink_transitions_spec sampleController true true true).2.2.1 rfl rfl,
    (sink_transitions_spec sampleOscActive true true true).2.2.2.2.1 rfl⟩

/-- C3: the constructor creates the preview relay with capacity exactly
2, and pushing three frames with no consumer draining keeps the first
two in order while the third push returns the Full drop signal at once. -/
theorem preview_relay_capacity_and_drop (av : List String) (ct : String → Bool)
    (cams : List (Nat × String)) (dv : Option String) (lg : Bool)
    (c : PoseCamController) (h : mkController av ct cams dv lg = Except.ok c)
    (f1 f2 f3 : Frame) :
    c.preview_frame_queue = { maxsize := 2, items := [] } ∧
    c.preview_frame_queue.put_nowait f1 = some { maxsize := 2, items := [f1] } ∧
    PreviewQueue.put_nowait { maxsize := 2, items := [f1] } f2 =
      some { maxsize := 2, items := [f1, f2] } ∧
    PreviewQueue.put_nowait { maxsize := 2, items := [f1, f2] } f3 = none := by
  have hq : c.preview_frame_queue = { maxsize := 2, items := [] } := by
    simp only [mkController, PoseCamController.init_detector] at h
    repeat' split at h
    all_goals first
      | (simp only [Except.ok.injEq] at h; subst h; rfl)
      | simp at h
  refine ⟨hq, ?_, ?_, ?_⟩
  · rw [hq]
    simp [PreviewQueue.put_nowait]
  · simp [PreviewQueue.put_nowait]
  · simp [PreviewQueue.put_nowait]

/-- The controller produced by a concrete constructor run. -/
def sampleInitController : PoseCamController :=
  { available_detectors := ["m1"]
    detector_ctor_ok := fun _ => true
    state := AppState.INIT
    config :=
      { input := "file", loop_video := true, draw_ndi_overlay := true,
        ndi_name := "posePC", osc_ip := "127.0.0.1", osc_port := 5005,
        osc_listen_port := 9000, video_file := none,
        camera_id := 0, fps_limit := 30, detector_model := "m1" }
    pose_detector := some "m1"
    video_width := 0
    video_height := 0
    available_cameras := []
    perf_log_ok := true
    model_perf_stats := fun _ => none
    video_capture := none
    osc_client := false
    osc_active := false
    ndi_sender := false
    ndi_active := false
    ndi_init_done := false
    gui := false
    frame_count := 0
    preview_frame_queue := { maxsize := 2, items := [] } }

/-- Three concrete frames used by witnesses. -/
def frameA : Frame := { id := 1, overlays := 0 }

/-- Second concrete frame. -/
def frameB : Frame := { id := 2, overlays := 0 }

/-- Third concrete frame. -/
def frameC : Frame := { id := 3, overlays := 0 }

/-- Witness for C3 at a concrete constructor run and three frames. -/
theorem preview_relay_capacity_and_drop_witness :
    mkController ["m1"] (fun _ => true) [] none true =
      Except.ok sampleInitController ∧
    (sampleInitController.preview_frame_queue = { maxsize := 2, items := [] } ∧
      sampleInitController.preview_frame_queue.put_nowait frameA =
        some { maxsize := 2, items := [frameA] } ∧
      PreviewQueue.put_nowait { maxsize := 2, items := [frameA] } frameB =
        some { maxsize := 2, items := [frameA, frameB] } ∧
      PreviewQueue.put_nowait { maxsize := 2, items := [frameA, frameB] } frameC =
        none) :=
  ⟨rfl, preview_relay_capacity_and_drop ["m1"] (fun _ => true) [] none true
    sampleInitController rfl frameA frameB frameC⟩

/-- log_perf_event leaves everything except the stats map unchanged. -/
theorem log_perf_event_preserves (c : PoseCamController) :
    (c.log_perf_event).1.config = c.config ∧
    (c.log_perf_event).1.state = c.state ∧
    (c.log_perf_event).1.perf_log_ok = c.perf_log_ok ∧
    (c.log_perf_event).1.frame_count = c.frame_count ∧
    (c.log_perf_event).1.available_detectors = c.available_detectors ∧
    (c.log_perf_event).1.detector_ctor_ok = c.detector_ctor_ok := by
  unfold PoseCamController.log_perf_event
  split
  · simp
  · dsimp only
    split <;> simp

/-- When logging is enabled, log_perf_event resets the accumulator of
the active model to zero. -/
theorem log_perf_event_resets (c : PoseCamController) (h : c.perf_log_ok = true) :
    (c.log_perf_event).1.model_perf_stats c.config.detector_model =
      some { total_time := 0, frame_count := 0 } := by
  unfold PoseCamController.log_perf_event
  rw [h]
  split
  · simp_all
  · dsimp only
    split <;> simp

/-- log_perf_frame leaves the config and the logging flag unchanged. -/
theorem log_perf_frame_preserves (c : PoseCamController) (t : Rat) (p : Nat) :
    (c.log_perf_frame t p).1.config = c.config ∧
    (c.log_perf_frame t p).1.perf_log_ok = c.perf_log_ok ∧
    (c.log_perf_frame t p).1.frame_count = c.frame_count := by
  unfold PoseCamController.log_perf_frame
  split <;> simp

/-- When logging is enabled, one log_perf_frame call adds the frame time
to the active model accumulator and counts one more frame. -/
theorem log_perf_frame_stats (c : PoseCamController) (t : Rat) (p : Nat)
    (T : Rat) (k : Nat) (hl : c.perf_log_ok = true)
    (hs : c.model_perf_stats c.config.detector_model =
      some { total_time := T, frame_count := k }) :
    (c.log_perf_frame t p).1.model_perf_stats c.config.detector_model =
      some { total_time := T + t, frame_count := k + 1 } := by
  unfold PoseCamController.log_perf_frame
  rw [hl]
  simp [hs]

/-- Folding log_perf_frame over a list of frame times. -/
def logFrames (c : PoseCamController) (ts : List Rat) : PoseCamController :=
  ts.foldl (fun a t => (a.log_perf_frame t 0).1) c

/-- Accumulated statistics after a sequence of frame records: the total
time grows by the sum of the times and the count by their number. -/
theorem logFrames_stats (ts : List Rat) (c : PoseCamController)
    (T : Rat) (k : Nat) (hl : c.perf_log_ok = true)
    (hs : c.model_perf_stats c.config.detector_model =
      some { total_time := T, frame_count := k }) :
    (logFrames c ts).config = c.config ∧
    (logFrames c ts).perf_log_ok = true ∧
    (logFrames c ts).model_perf_stats c.config.detector_model =
      some { total_time := T + ts.sum, frame_count := k + ts.length } := by
  induction ts generalizing c T k with
  | nil =>
    refine ⟨rfl, hl, ?_⟩
    simpa [logFrames] using hs
  | cons t ts ih =>
    have hpre := log_perf_frame_preserves c t 0
    have hstep := log_perf_frame_stats c t 0 T k hl hs
    have hl2 : ((c.log_perf_frame t 0).1).perf_log_ok = true := by
      rw [hpre.2.1, hl]
    have hs2 : ((c.log_perf_frame t 0).1).model_perf_stats
        ((c.log_perf_frame t 0).1).config.detector_model =
        some { total_time := T + t, frame_count := k + 1 } := by
      rw [hpre.1]
      exact hstep
    have := ih ((c.log_perf_frame t 0).1) (T + t) (k + 1) hl2 hs2
    refine ⟨?_, this.2.1, ?_⟩
    · rw [show logFrames c (t :: ts) = logFrames ((c.log_perf_frame t 0).1) ts from rfl]
      rw [this.1, hpre.1]
    · rw [show logFrames c (t :: ts) = logFrames ((c.log_perf_frame t 0).1) ts from rfl]
      have h3 := this.2.2
      rw [hpre.1] at h3
      rw [h3]
      simp [List.sum_cons]
      constructor
      · ring
      · omega

/-- The frame row written by one log_perf_frame call when the
accumulator currently holds total T over k frames. -/
theorem log_perf_frame_row (c : PoseCamController) (t : Rat) (p : Nat)
    (T : Rat) (k : Nat) (hl : c.perf_log_ok = true)
    (hs : c.model_perf_stats c.config.detector_model =
      some { total_time := T, frame_count := k })
    (hT : 0 ≤ T) (ht : 0 < t) :
    (c.log_perf_frame t p).2 = [Event.frameRow
      { model := c.config.detector_model, frame_num := c.frame_count,
        time_ms := t * 1000, fps := 1 / t, persons := p,
        running_avg_ms := ((T + t) / ((k : Rat) + 1)) * 1000,
        running_avg_fps := ((k : Rat) + 1) / (T + t) }] := by
  have hTt : (0 : Rat) < T + t := add_pos_of_nonneg_of_pos hT ht
  have hk : (0 : Rat) < (k : Rat) + 1 := by positivity
  have havg : 0 < (T + t) / ((k : Rat) + 1) := div_pos hTt hk
  unfold PoseCamController.log_perf_frame
  rw [hl]
  simp [hs, ht, havg, Nat.cast_add, Nat.cast_one, one_div_div]

/-- C4: starting from a performance event, N recorded frames with times
t1..tN leave the active model accumulator at total ts.sum over N frames;
the row written for the last frame carries the running average
(sum)/(N) in milliseconds and its reciprocal as fps; and the event
itself zeroes the accumulator, so the first row after it averages to
that frame's own time. -/
theorem perf_running_average (c : PoseCamController) (ts : List Rat)
    (t : Rat) (p : Nat) (hl : c.perf_log_ok = true)
    (hts : ∀ x ∈ ts, 0 < x) (ht : 0 < t) :
    ((c.log_perf_event).1.model_perf_stats c.config.detector_model =
      some { total_time := 0, frame_count := 0 }) ∧
    ((logFrames (c.log_perf_event).1 ts).model_perf_stats c.config.detector_model =
      some { total_time := ts.sum, frame_count := ts.length }) ∧
    (((logFrames (c.log_perf_event).1 ts).log_perf_frame t p).1.model_perf_stats
        c.config.detector_model =
      some { total_time := ts.sum + t, frame_count := ts.length + 1 }) ∧
    (((logFrames (c.log_perf_event).1 ts).log_perf_frame t p).2 = [Event.frameRow
      { model := c.config.detector_model,
        frame_num := (logFrames (c.log_perf_event).1 ts).frame_count,
        time_ms := t * 1000, fps := 1 / t, persons := p,
        running_avg_ms := ((ts.sum + t) / ((ts.length : Rat) + 1)) * 1000,
        running_avg_fps := ((ts.length : Rat) + 1) / (ts.sum + t) }]) := by
  have hpre := log_perf_event_preserves c
  have hl0 : (c.log_perf_event).1.perf_log_ok = true := by
    rw [hpre.2.2.1]
    exact hl
  have hr := log_perf_event_resets c hl
  have hr0 : (c.log_perf_event).1.model_perf_stats
      (c.log_perf_event).1.config.detector_model =
      some { total_time := 0, frame_count := 0 } := by
    rw [hpre.1]
    exact hr
  have hfold := logFrames_stats ts (c.log_perf_event).1 0 0 hl0 hr0
  have hc1config : (logFrames (c.log_perf_event).1 ts).config = c.config := by
    rw [hfold.1, hpre.1]
  have hl1 : (logFrames (c.log_perf_event).1 ts).perf_log_ok = true := hfold.2.1
  have hs1 : (logFrames (c.log_perf_event).1 ts).model_perf_stats
      ((logFrames (c.log_perf_event).1 ts).config.detector_model) =
      some { total_time := ts.sum, frame_count := ts.length } := by
    have h3 := hfold.2.2
    rw [hpre.1] at h3
    rw [hc1config]
    simpa using h3
  have hsum : (0 : Rat) ≤ ts.sum :=
    List.sum_nonneg (fun x hx => le_of_lt (hts x hx))
  have hstats := log_perf_frame_stats (logFrames (c.log_perf_event).1 ts) t p
    ts.sum ts.length hl1 hs1
  have hrow := log_perf_frame_row (logFrames (c.log_perf_event).1 ts) t p
    ts.sum ts.length hl1 hs1 hsum ht
  refine ⟨hr, ?_, ?_, ?_⟩
  · have h3 := hfold.2.2
    rw [hpre.1] at h3
    simpa using h3
  · rw [hc1config] at hstats
    exact hstats
  · rw [hc1config] at hrow
    exact hrow

/-- Witness for C4: two frames of 2 s and 1 s then a 1 s frame at a
concrete controller; hypotheses hold by computation. -/
theorem perf_running_average_witness :
    sampleController.perf_log_ok = true ∧
    (∀ x ∈ [(2 : Rat), 1], 0 < x) ∧ (0 < (1 : Rat)) ∧
    (((logFrames (sampleController.log_perf_event).1 [(2 : Rat), 1]).log_perf_frame
        (1 : Rat) 0).2 = [Event.frameRow
      { model := sampleController.config.detector_model,
        frame_num :=
          (logFrames (sampleController.log_perf_event).1 [(2 : Rat), 1]).frame_count,
        time_ms := (1 : Rat) * 1000, fps := 1 / (1 : Rat), persons := 0,
        running_avg_ms :=
          (([(2 : Rat), 1].sum + (1 : Rat)) /
            (([(2 : Rat), 1].length : Rat) + 1)) * 1000,
        running_avg_fps :=
          (([(2 : Rat), 1].length : Rat) + 1) /
            ([(2 : Rat), 1].sum + (1 : Rat)) }]) :=
  ⟨rfl, by decide, by decide,
    (perf_running_average sampleController [(2 : Rat), 1] (1 : Rat) 0 rfl
      (by decide) (by decide)).2.2.2⟩

/-- A successful detector instantiation leaves the configuration as it
was. -/
theorem init_detector_ok_config (c c1 : PoseCamController)
    (h : c.init_detector = Except.ok c1) : c1.config = c.config := by
  unfold PoseCamController.init_detector at h
  dsimp only at h
  split at h
  · split at h
    · simp only [Except.ok.injEq] at h
      subst h
      rfl
    · simp at h
  · simp at h

/-- C2: outside READY and STOPPED a detector swap is rejected: the
controller is returned unchanged with a warning, and the GUI, when
attached, is told to revert its dropdown to the configured model; in
READY or STOPPED every non-raising outcome carries the requested model
name in the configuration. -/
theorem change_detector_guard (c : PoseCamController) (name : String) :
    (¬ (c.state = AppState.READY ∨ c.state = AppState.STOPPED) →
      c.change_detector_model name =
        (Except.ok c, Event.warn ::
          (if c.gui then [Event.guiRevertDetector c.config.detector_model] else []))) ∧
    ((c.state = AppState.READY ∨ c.state = AppState.STOPPED) →
      ∀ c1, (c.change_detector_model name).1 = Except.ok c1 →
        c1.config.detector_model = name) := by
  constructor
  · intro h
    have h2 : ¬ (c.state = AppState.STOPPED ∨ c.state = AppState.READY) := by
      tauto
    simp [PoseCamController.change_detector_model, h2]
  · intro h c1 hok
    have h2 : c.state = AppState.STOPPED ∨ c.state = AppState.READY := by
      tauto
    by_cases hname : name = c.config.detector_model
    · rw [change_detector_same_name_noop c name h2 hname] at hok
      simp only [Except.ok.injEq] at hok
      rw [← hok, hname]
    · have hcfg : (((c.update_config_detector_model name).1.log_perf_event).1).config.detector_model
          = name := by
        rw [(log_perf_event_preserves (c.update_config_detector_model name).1).1]
        rfl
      unfold PoseCamController.change_detector_model at hok
      rw [if_neg (by tauto), if_neg hname] at hok
      dsimp only at hok
      cases hinit : (((c.update_config_detector_model name).1.log_perf_event).1).init_detector with
      | ok c3 =>
        rw [hinit] at hok
        dsimp only at hok
        simp only [Except.ok.injEq] at hok
        rw [← hok, init_detector_ok_config _ _ hinit, hcfg]
      | error e =>
        rw [hinit] at hok
        simp at hok

/-- A concrete controller in RUNNING state with an opened capture. -/
def sampleRunningController : PoseCamController :=
  { sampleController with state := AppState.RUNNING, video_capture := some true }

/-- The controller obtained from sampleController by an accepted swap to
model m2. -/
def sampleSwapped : PoseCamController :=
  { sampleController with
    config := { sampleConfig with detector_model := "m2" }
    pose_detector := some "m2"
    model_perf_stats := fun n =>
      if n = "m2" then some { total_time := 0, frame_count := 0 }
      else sampleController.model_perf_stats n }

/-- Witness for C2: a RUNNING controller rejects the swap with warning
and GUI revert, and a READY controller accepts it, ending with the
requested model configured. -/
theorem change_detector_guard_witness :
    (¬ (sampleRunningController.state = AppState.READY ∨
        sampleRunningController.state = AppState.STOPPED) →
      sampleRunningController.change_detector_model "m2" =
        (Except.ok sampleRunningController, Event.warn ::
          (if sampleRunningController.gui then
            [Event.guiRevertDetector sampleRunningController.config.detector_model]
          else []))) ∧
    (¬ (sampleRunningController.state = AppState.READY ∨
        sampleRunningController.state = AppState.STOPPED)) ∧
    (sampleController.state = AppState.READY ∨
      sampleController.state = AppState.STOPPED) ∧
    (sampleController.change_detector_model "m2").1 = Except.ok sampleSwapped ∧
    sampleSwapped.config.detector_model = "m2" :=
  ⟨(change_detector_guard sampleRunningController "m2").1, by decide, Or.inl rfl, rfl,
    (change_detector_guard sampleController "m2").2 (Or.inl rfl) sampleSwapped rfl⟩

/-- A concrete run-loop environment delivering one fresh frame. -/
def sampleEnv : FrameEnv :=
  { open_ok := true, open_width := 640, open_height := 480,
    read1 := some frameA, read2 := none, persons := 1, frame_time := 1 }

/-- C9 counterexample: with the overlay flag set, the iteration draws
only onto the frame before cloning, so the preview clone never receives
a second, independently drawn overlay. -/
theorem preview_second_overlay_cex :
    sampleRunningController.config.draw_ndi_overlay = true ∧
    sampleEnv.read1 = some frameA ∧
    Event.drawOverlay true ∉ (sampleRunningController.runStep sampleEnv).2 := by
  refine ⟨rfl, rfl, ?_⟩
  simp [PoseCamController.runStep, PoseCamController.runStepRunning,
    PoseCamController.processFrame, PoseCamController.capture_frame,
    PoseCamController.log_perf_frame, PreviewQueue.put_nowait,
    sampleRunningController, sampleController, sampleEnv, sampleConfig, frameA]

/-- C9 amended: in a RUNNING iteration that reads a frame, the preview
clone receives its own overlay drawing exactly when the overlay flag is
off; in both flag settings the frame pushed to the preview relay carries
exactly one more overlay than the captured frame (with the flag on, the
clone shares the overlay already drawn for the video sink). -/
theorem preview_overlay_spec (c : PoseCamController) (env : FrameEnv) (f : Frame)
    (h1 : c.state = AppState.RUNNING) (h2 : c.video_capture = some true)
    (h3 : env.read1 = some f)
    (h4 : c.preview_frame_queue.items.length < c.preview_frame_queue.maxsize) :
    (Event.drawOverlay true ∈ (c.runStep env).2 ↔
      c.config.draw_ndi_overlay = false) ∧
    (c.runStep env).1.preview_frame_queue.items =
      c.preview_frame_queue.items ++ [{ id := f.id, overlays := f.overlays + 1 }] := by
  have hput : ¬ (0 < c.preview_frame_queue.maxsize ∧
      c.preview_frame_queue.maxsize ≤ c.preview_frame_queue.items.length) := by
    omega
  cases hov : c.config.draw_ndi_overlay <;> cases hlog : c.perf_log_ok <;>
    simp [PoseCamController.runStep, PoseCamController.runStepRunning,
      PoseCamController.processFrame, PoseCamController.capture_frame,
      PoseCamController.log_perf_frame, PreviewQueue.put_nowait,
      h1, h2, h3, hov, hlog, hput]

/-- Witness for C9 amended at a flag-off controller reading one frame. -/
theorem preview_overlay_spec_witness :
    ({ sampleRunningController with
        config := { sampleConfig with draw_ndi_overlay := false } } :
      PoseCamController).state = AppState.RUNNING ∧
    (Event.drawOverlay true ∈
      (({ sampleRunningController with
          config := { sampleConfig with draw_ndi_overlay := false } } :
        PoseCamController).runStep sampleEnv).2 ↔
      ({ sampleRunningController with
          config := { sampleConfig with draw_ndi_overlay := false } } :
        PoseCamController).config.draw_ndi_overlay = false) :=
  ⟨rfl,
    (preview_overlay_spec
      { sampleRunningController with
        config := { sampleConfig with draw_ndi_overlay := false } }
      sampleEnv frameA rfl rfl rfl (by decide)).1⟩

/-- capture_frame never reports a capture open. -/
theorem capture_frame_count_opened (c : PoseCamController) (env : FrameEnv) :
    ((c.capture_frame env).2).count Event.captureOpened = 0 := by
  unfold PoseCamController.capture_frame
  repeat' split
  all_goals rfl

/-- log_perf_frame never reports a capture open. -/
theorem log_perf_frame_count_opened (c : PoseCamController) (t : Rat) (p : Nat) :
    ((c.log_perf_frame t p).2).count Event.captureOpened = 0 := by
  unfold PoseCamController.log_perf_frame
  split
  · rfl
  · rfl

/-- log_perf_event never reports a capture open. -/
theorem log_perf_event_count_opened (c : PoseCamController) :
    ((c.log_perf_event).2).count Event.captureOpened = 0 := by
  unfold PoseCamController.log_perf_event
  split
  · rfl
  · dsimp only
    split <;> rfl

/-- log_perf_event does not touch the capture handle. -/
theorem log_perf_event_vc (c : PoseCamController) :
    (c.log_perf_event).1.video_capture = c.video_capture := by
  unfold PoseCamController.log_perf_event
  split
  · rfl
  · dsimp only
    split <;> rfl

set_option maxHeartbeats 1600000 in
/-- The per-frame body touches neither the capture handle, the state,
nor the sink flags, and opens no capture. -/
theorem processFrame_facts (c : PoseCamController) (env : FrameEnv) (f : Frame) :
    (c.processFrame env f).1.video_capture = c.video_capture ∧
    (c.processFrame env f).1.state = c.state ∧
    (c.processFrame env f).1.osc_active = c.osc_active ∧
    (c.processFrame env f).1.ndi_active = c.ndi_active ∧
    (c.processFrame env f).1.osc_client = c.osc_client ∧
    (c.processFrame env f).1.ndi_sender = c.ndi_sender ∧
    ((c.processFrame env f).2.count Event.captureOpened = 0) := by
  refine ⟨?_, ?_, ?_, ?_, ?_, ?_, ?_⟩ <;>
    (unfold PoseCamController.processFrame PoseCamController.log_perf_frame
      PreviewQueue.put_nowait
     dsimp only
     repeat' split) <;>
    rfl

/-- stop_video_stream leaves the capture handle and both sinks alone,
opens no capture, and moves a non-stopped controller to STOPPED. -/
theorem stop_video_stream_facts (c : PoseCamController) :
    (c.stop_video_stream).1.video_capture = c.video_capture ∧
    (c.stop_video_stream).1.osc_active = c.osc_active ∧
    (c.stop_video_stream).1.ndi_active = c.ndi_active ∧
    (c.stop_video_stream).1.osc_client = c.osc_client ∧
    (c.stop_video_stream).1.ndi_sender = c.ndi_sender ∧
    ((c.stop_video_stream).2.count Event.captureOpened = 0) ∧
    (¬ (c.state = AppState.STOPPED ∨ c.state = AppState.READY) →
      (c.stop_video_stream).1.state = AppState.STOPPED) := by
  unfold PoseCamController.stop_video_stream PoseCamController.update_state
  split
  · simp_all
  · cases hg : c.gui <;> simp [hg]

/-- The stop method preserves the capture handle, moves to STOPPED and
opens no capture. -/
theorem stop_facts (c : PoseCamController) :
    (c.stop).1.video_capture = c.video_capture ∧
    (c.stop).1.state = AppState.STOPPED ∧
    ((c.stop).2.count Event.captureOpened = 0) := by
  unfold PoseCamController.stop PoseCamController.update_state
    PoseCamController.stop_osc PoseCamController.stop_ndi
  dsimp only
  repeat' split
  all_goals simp

/-- The capture-creation block: a handle is created exactly once and
records the open outcome; the iteration proceeds exactly when the open
succeeded; on failure the block logs an error and stops the controller. -/
theorem openCapture_facts (c : PoseCamController) (env : FrameEnv)
    (h3 : c.config.input = "webcam" ∨
      (c.config.input = "file" ∧ c.config.video_file.isSome = true)) :
    ((c.openCapture env).2.1.count Event.captureOpened = 1) ∧
    ((c.openCapture env).1.video_capture = some env.open_ok) ∧
    ((c.openCapture env).2.2 = env.open_ok) ∧
    (env.open_ok = false →
      (c.openCapture env).1.state = AppState.STOPPED ∧
      Event.error ∈ (c.openCapture env).2.1) := by
  have hbranch :
      (if c.config.input = "webcam" then
        (({ c with video_capture := some env.open_ok } : PoseCamController),
          [Event.captureOpened])
      else if c.config.input = "file" ∧ c.config.video_file.isSome then
        (({ c with video_capture := some env.open_ok } : PoseCamController),
          [Event.captureOpened])
      else (c, [])) =
      (({ c with video_capture := some env.open_ok } : PoseCamController),
        [Event.captureOpened]) := by
    rcases h3 with h3 | ⟨h3, h4⟩
    · rw [if_pos h3]
    · by_cases hw : c.config.input = "webcam"
      · rw [if_pos hw]
      · rw [if_neg hw, if_pos ⟨h3, by exact h4⟩]
  unfold PoseCamController.openCapture
  dsimp only
  rw [hbranch]
  dsimp only
  rcases hok : env.open_ok
  · rw [if_neg (by simp)]
    dsimp only
    have hs := stop_facts ({ c with video_capture := some false } : PoseCamController)
    refine ⟨?_, ?_, rfl, fun _ => ⟨hs.2.1, ?_⟩⟩
    · simp [List.count_append, List.count_cons, apply_ite
        (List.count Event.captureOpened), hs.2.2]
    · rw [hs.1]
    · by_cases hfi : c.config.input = "file" <;> simp [hfi]
  · rw [if_pos rfl]
    dsimp only
    refine ⟨?_, ?_, rfl, fun habs => by simp at habs⟩
    · simp [List.count_append, List.count_cons, apply_ite
        (List.count Event.captureOpened), log_perf_event_count_opened]
    · rw [log_perf_event_vc]


/-- C5: an iteration in READY, STOPPED or INIT with a live handle
releases it exactly once and zeroes the recorded resolution, and does
nothing when no handle exists; an iteration entering RUNNING with no
handle creates exactly one handle (open outcome recorded), and an
iteration in RUNNING with an existing handle never creates another. -/
theorem capture_lifecycle (c : PoseCamController) (env : FrameEnv) :
    ((c.state = AppState.READY ∨ c.state = AppState.STOPPED ∨
        c.state = AppState.INIT) →
      (c.video_capture.isSome = true →
        (c.runStep env).1.video_capture = none ∧
        (c.runStep env).1.video_width = 0 ∧
        (c.runStep env).1.video_height = 0 ∧
        ((c.runStep env).2.count Event.captureReleased = 1)) ∧
      (c.video_capture = none → c.runStep env = (c, []))) ∧
    (c.state = AppState.RUNNING → c.video_capture = none →
      (c.config.input = "webcam" ∨
        (c.config.input = "file" ∧ c.config.video_file.isSome = true)) →
      ((c.runStep env).2.count Event.captureOpened = 1) ∧
      (env.open_ok = true → (c.runStep env).1.video_capture = some true)) ∧
    (c.state = AppState.RUNNING → c.video_capture.isSome = true →
      (c.runStep env).2.count Event.captureOpened = 0) := by
  refine ⟨?_, ?_, ?_⟩
  · intro h
    have hnr : ¬ c.state = AppState.RUNNING := by
      rcases h with h | h | h <;> simp [h]
    have hnp : ¬ c.state = AppState.PAUSED := by
      rcases h with h | h | h <;> simp [h]
    constructor
    · intro hs
      obtain ⟨b, hb⟩ := Option.isSome_iff_exists.mp hs
      cases hg : c.gui <;>
        simp [PoseCamController.runStep, hnr, hnp, hb, hg, List.count_cons]
    · intro hnone
      simp [PoseCamController.runStep, hnr, hnp, hnone]
  · intro h1 h2 h3
    have hO := openCapture_facts c env h3
    rw [show c.runStep env = c.runStepRunning env from by
      simp [PoseCamController.runStep, h1]]
    unfold PoseCamController.runStepRunning
    dsimp only
    rw [if_pos h2]
    by_cases hok : env.open_ok = true
    · have hp : (c.openCapture env).2.2 = true := by rw [hO.2.2.1, hok]
      rw [hp, if_neg (by simp)]
      rcases hcf : (c.openCapture env).1.capture_frame env with ⟨of, ev2⟩
      have hcfc : ev2.count Event.captureOpened = 0 := by
        have h5 := capture_frame_count_opened (c.openCapture env).1 env
        rw [hcf] at h5
        simpa using h5
      cases of with
      | some f =>
        dsimp only
        have hpf := processFrame_facts (c.openCapture env).1 env f
        refine ⟨?_, fun _ => ?_⟩
        · simp [List.count_append, hO.1, hcfc, hpf.2.2.2.2.2.2]
        · rw [hpf.1, hO.2.1, hok]
      | none =>
        dsimp only
        have hsv := stop_video_stream_facts (c.openCapture env).1
        refine ⟨?_, fun _ => ?_⟩
        · simp [List.count_append, hO.1, hcfc, hsv.2.2.2.2.2.1]
        · rw [hsv.1, hO.2.1, hok]
    · have hokf : env.open_ok = false := by
        cases henv : env.open_ok
        · rfl
        · exact absurd henv hok
      have hp : (c.openCapture env).2.2 = false := by rw [hO.2.2.1, hokf]
      rw [hp, if_pos rfl]
      refine ⟨hO.1, fun habs => absurd habs hok⟩
  · intro h1 h2
    obtain ⟨b, hb⟩ := Option.isSome_iff_exists.mp h2
    have hne : ¬ c.video_capture = none := by rw [hb]; simp
    rw [show c.runStep env = c.runStepRunning env from by
      simp [PoseCamController.runStep, h1]]
    unfold PoseCamController.runStepRunning
    dsimp only
    rw [if_neg hne]
    dsimp only
    rw [if_neg (by simp)]
    rcases hcf : c.capture_frame env with ⟨of, ev2⟩
    have hcfc : ev2.count Event.captureOpened = 0 := by
      have h5 := capture_frame_count_opened c env
      rw [hcf] at h5
      simpa using h5
    cases of with
    | some f =>
      dsimp only
      have hpf := processFrame_facts c env f
      simp [List.count_append, hcfc, hpf.2.2.2.2.2.2]
    | none =>
      dsimp only
      have hsv := stop_video_stream_facts c
      simp [List.count_append, hcfc, hsv.2.2.2.2.2.1]

/-- A stopped controller still holding a capture handle. -/
def sampleStoppedCapture : PoseCamController :=
  { sampleController with state := AppState.STOPPED, video_capture := some true }

/-- A running controller with no capture handle yet. -/
def sampleRunNoCapture : PoseCamController :=
  { sampleController with state := AppState.RUNNING }

/-- Witness for C5: one release-exactly-once iteration after stopping
and one open-exactly-once iteration after starting. -/
theorem capture_lifecycle_witness :
    (sampleStoppedCapture.runStep sampleEnv).1.video_capture = none ∧
    (sampleStoppedCapture.runStep sampleEnv).1.video_width = 0 ∧
    (sampleStoppedCapture.runStep sampleEnv).1.video_height = 0 ∧
    ((sampleStoppedCapture.runStep sampleEnv).2.count Event.captureReleased = 1) ∧
    ((sampleRunNoCapture.runStep sampleEnv).2.count Event.captureOpened = 1) := by
  have h1 := ((capture_lifecycle sampleStoppedCapture sampleEnv).1
    (Or.inr (Or.inl rfl))).1 rfl
  have h2 := ((capture_lifecycle sampleRunNoCapture sampleEnv).2.1 rfl rfl
    (Or.inr ⟨rfl, rfl⟩)).1
  exact ⟨h1.1, h1.2.1, h1.2.2.1, h1.2.2.2, h2⟩

/-- C6: on a failed read from an opened capture, the frame grab seeks to
the start and retries exactly once iff the source is a looping file,
returning the retried read; and a RUNNING iteration whose grab yields no
frame (after any retry) moves the state to STOPPED while leaving both
output sinks and their activation flags untouched. -/
theorem end_of_stream_handling (c : PoseCamController) (env : FrameEnv) :
    (c.video_capture = some true → env.read1 = none →
      (c.config.input = "file" ∧ c.config.loop_video = true →
        c.capture_frame env = (env.read2, [Event.seekToStart])) ∧
      (¬ (c.config.input = "file" ∧ c.config.loop_video = true) →
        c.capture_frame env = (none, []))) ∧
    (c.state = AppState.RUNNING → c.video_capture = some true →
      (c.capture_frame env).1 = none →
      (c.runStep env).1.state = AppState.STOPPED ∧
      (c.runStep env).1.osc_active = c.osc_active ∧
      (c.runStep env).1.ndi_active = c.ndi_active ∧
      (c.runStep env).1.osc_client = c.osc_client ∧
      (c.runStep env).1.ndi_sender = c.ndi_sender) := by
  constructor
  · intro hvc hr1
    constructor
    · intro hloop
      unfold PoseCamController.capture_frame
      rw [hvc, hr1]
      simp [hloop]
    · intro hnoloop
      unfold PoseCamController.capture_frame
      rw [hvc, hr1]
      simp [hnoloop]
  · intro h1 hvc hnof
    have hne : ¬ c.video_capture = none := by rw [hvc]; simp
    rw [show c.runStep env = c.runStepRunning env from by
      simp [PoseCamController.runStep, h1]]
    unfold PoseCamController.runStepRunning
    dsimp only
    rw [if_neg hne]
    dsimp only
    rw [if_neg (by simp)]
    rcases hcf : c.capture_frame env with ⟨of, ev2⟩
    rw [hcf] at hnof
    simp only at hnof
    subst hnof
    dsimp only
    have hsv := stop_video_stream_facts c
    have hst : (c.stop_video_stream).1.state = AppState.STOPPED := by
      refine hsv.2.2.2.2.2.2 ?_
      rw [h1]
      simp
    exact ⟨hst, hsv.2.1, hsv.2.2.1, hsv.2.2.2.1, hsv.2.2.2.2.1⟩

/-- An environment whose reads both fail: end of stream. -/
def sampleEnvEOF : FrameEnv :=
  { open_ok := true, open_width := 640, open_height := 480,
    read1 := none, read2 := none, persons := 0, frame_time := 1 }

/-- Witness for C6: a looping-file RUNNING controller at end of stream
seeks once and then stops only the video stream. -/
theorem end_of_stream_handling_witness :
    sampleRunningController.capture_frame sampleEnvEOF =
      (sampleEnvEOF.read2, [Event.seekToStart]) ∧
    (sampleRunningController.runStep sampleEnvEOF).1.state = AppState.STOPPED ∧
    (sampleRunningController.runStep sampleEnvEOF).1.osc_active =
      sampleRunningController.osc_active ∧
    (sampleRunningController.runStep sampleEnvEOF).1.ndi_active =
      sampleRunningController.ndi_active := by
  have h := end_of_stream_handling sampleRunningController sampleEnvEOF
  have ha := (h.1 rfl rfl).1 ⟨rfl, rfl⟩
  have hb := h.2 rfl rfl (by rw [ha]; rfl)
  exact ⟨ha, hb.1, hb.2.1, hb.2.2.1⟩

/-- A successful detector instantiation implies the configured model is
known and its backend constructor succeeds. -/
theorem init_detector_ok_means (c c1 : PoseCamController)
    (h : c.init_detector = Except.ok c1) :
    c.config.detector_model ∈ c.available_detectors ∧
    c.detector_ctor_ok c.config.detector_model = true := by
  unfold PoseCamController.init_detector at h
  dsimp only at h
  split at h
  · split at h
    · constructor <;> assumption
    · simp at h
  · simp at h

/-- C7: detector initialization raises exactly on an unknown model name
or a failing backend constructor; the constructor propagates such a
failure at startup; an accepted swap propagates it uncaught; but a
failed capture open in the run loop is non-fatal: the error is logged,
the state becomes STOPPED, and a later start command returns to RUNNING. -/
theorem detector_fatal_capture_nonfatal (c : PoseCamController)
    (name : String) (av : List String) (ct : String → Bool)
    (cams : List (Nat × String)) (dv : Option String) (lg : Bool)
    (env : FrameEnv) :
    (exceptIsOk c.init_detector = false ↔
      (c.config.detector_model ∉ c.available_detectors ∨
        c.detector_ctor_ok c.config.detector_model = false)) ∧
    (exceptIsOk (mkController av ct cams dv lg) = false ↔
      (default_detector_name av ∉ av ∨
        ct (default_detector_name av) = false)) ∧
    ((c.state = AppState.READY ∨ c.state = AppState.STOPPED) →
      ¬ name = c.config.detector_model →
      (name ∉ c.available_detectors ∨ c.detector_ctor_ok name = false) →
      ∃ e, (c.change_detector_model name).1 = Except.error e) ∧
    (c.state = AppState.RUNNING → c.video_capture = none →
      env.open_ok = false →
      (c.config.input = "webcam" ∨
        (c.config.input = "file" ∧ c.config.video_file.isSome = true)) →
      (c.runStep env).1.state = AppState.STOPPED ∧
      Event.error ∈ (c.runStep env).2 ∧
      (((c.runStep env).1.start).1.state = AppState.RUNNING)) := by
  refine ⟨?_, ?_, ?_, ?_⟩
  · unfold PoseCamController.init_detector
    dsimp only
    split
    next hmem =>
      split
      next hct => simp [exceptIsOk, hmem, hct]
      next hct => simp [exceptIsOk, hmem, hct]
    next hmem => simp [exceptIsOk, hmem]
  · unfold mkController PoseCamController.init_detector
    dsimp only
    split
    next hmem =>
      split
      next hct => simp [exceptIsOk, hmem, hct]
      next hct => simp [exceptIsOk, hmem, hct]
    next hmem => simp [exceptIsOk, hmem]
  · intro hst hname hbad
    unfold PoseCamController.change_detector_model
    rw [if_neg (by tauto), if_neg hname]
    dsimp only
    cases hinit : (((c.update_config_detector_model name).1.log_perf_event).1).init_detector with
    | ok c3 =>
      exfalso
      have hm := init_detector_ok_means _ _ hinit
      have hcfg : (((c.update_config_detector_model name).1.log_perf_event).1).config.detector_model
          = name := by
        rw [(log_perf_event_preserves (c.update_config_detector_model name).1).1]
        rfl
      have hav : (((c.update_config_detector_model name).1.log_perf_event).1).available_detectors
          = c.available_detectors := by
        rw [(log_perf_event_preserves (c.update_config_detector_model name).1).2.2.2.2.1]
        rfl
      have hctr : (((c.update_config_detector_model name).1.log_perf_event).1).detector_ctor_ok
          = c.detector_ctor_ok := by
        rw [(log_perf_event_preserves (c.update_config_detector_model name).1).2.2.2.2.2]
        rfl
      rw [hcfg, hav, hctr] at hm
      rcases hbad with hb | hb
      · exact hb hm.1
      · rw [hm.2] at hb
        cases hb
    | error e =>
      exact ⟨e, rfl⟩
  · intro h1 h2 hok h3
    have hO := openCapture_facts c env h3
    have hfail := hO.2.2.2 hok
    rw [show c.runStep env = c.runStepRunning env from by
      simp [PoseCamController.runStep, h1]]
    unfold PoseCamController.runStepRunning
    dsimp only
    rw [if_pos h2]
    have hp : (c.openCapture env).2.2 = false := by rw [hO.2.2.1, hok]
    rw [hp, if_pos rfl]
    refine ⟨hfail.1, hfail.2, ?_⟩
    unfold PoseCamController.start PoseCamController.update_state
    rw [if_neg (by rw [hfail.1]; simp)]

/-- An environment whose capture open fails. -/
def sampleEnvFail : FrameEnv :=
  { open_ok := false, open_width := 0, open_height := 0,
    read1 := none, read2 := none, persons := 0, frame_time := 1 }

/-- Witness for C7: a swap to an unknown model raises at a READY
controller, while a failed capture open in a RUNNING iteration just
stops the controller and leaves it restartable. -/
theorem detector_fatal_capture_nonfatal_witness :
    (∃ e, (sampleController.change_detector_model "bogus").1 = Except.error e) ∧
    ((sampleRunNoCapture.runStep sampleEnvFail).1.state = AppState.STOPPED ∧
      Event.error ∈ (sampleRunNoCapture.runStep sampleEnvFail).2 ∧
      (((sampleRunNoCapture.runStep sampleEnvFail).1.start).1.state =
        AppState.RUNNING)) :=
  ⟨(detector_fatal_capture_nonfatal sampleController "bogus" [] (fun _ => true)
      [] none true sampleEnvFail).2.2.1 (Or.inl rfl) (by decide)
      (Or.inl (by decide)),
    (detector_fatal_capture_nonfatal sampleRunNoCapture "x" [] (fun _ => true)
      [] none true sampleEnvFail).2.2.2 rfl rfl rfl (Or.inr ⟨rfl, rfl⟩)⟩
